import Mathlib

/-!
Shallow embedding of the duoshe-plugin scheduling/selection engine
(`src/plugin.py`): the Napcat remote-call wrappers, the schedule store,
the per-group scheduling step and the execution cycle, together with
proofs of the spec's testable properties.

External effects (HTTP transport, the random generator, config lookups,
file system) are modelled as explicit inputs: each remote call receives
the transport outcome it would observe, each random draw is a parameter.
-/

/-- The member-info payload under `data`: the fields the plugin reads
(`card`, `nickname`, `role`), each possibly absent. -/
structure MemberData where
  card : Option String
  nickname : Option String
  role : Option String
  deriving DecidableEq, Repr

/-- A parsed JSON response body as the plugin inspects it: the `status`,
`message` and `data` fields (absent or `null` is `none`). -/
structure Body where
  status : Option String
  message : Option String
  data : Option MemberData
  deriving DecidableEq, Repr

/-- Outcome of `NapcatAPI._make_request`: `(True, body)` on a parsed
response, `(False, message)` on a transport/parse error. -/
inductive ApiResult (α : Type) where
  | ok (val : α)
  | err (msg : String)
  deriving DecidableEq, Repr

def ApiResult.isOk {α : Type} : ApiResult α → Bool
  | .ok _ => true
  | .err _ => false

namespace NapcatAPI

/-- `NapcatAPI.group_poke` after `_make_request`: propagates a transport
failure, otherwise returns the parsed body as success without inspecting
its `status` or `data`. -/
def group_poke (resp : ApiResult Body) : ApiResult Body :=
  match resp with
  | .err e => .err e
  | .ok result => .ok result

/-- `NapcatAPI.set_group_card` after `_make_request`: fails when the body's
`status` is not `"ok"`; the body's `data` field is read but never used. -/
def set_group_card (resp : ApiResult Body) : ApiResult Body :=
  match resp with
  | .err e => .err e
  | .ok result =>
    if result.status ≠ some "ok" then
      .err ("设置群名片失败: " ++ result.message.getD "未知错误")
    else
      .ok result

/-- `NapcatAPI.get_group_member_info` after `_make_request`: fails when the
body's `data` is absent or `null`, otherwise returns the payload; the
body's `status` is never inspected. -/
def get_group_member_info (resp : ApiResult Body) : ApiResult MemberData :=
  match resp with
  | .err e => .err e
  | .ok result =>
    match result.data with
    | none => .err "获取群成员信息失败：返回数据为空"
    | some d => .ok d

end NapcatAPI

/-- Python string coercion `a or b`: the first operand unless it is empty
(falsy), as in `target_info.get("card", "") or target_info.get("nickname", "")`. -/
def pyOr (a b : String) : String := if a = "" then b else a

/-- One step of the `user_message_count[user_id] += 1` loop on the defaultdict,
keeping keys in order of first appearance as a Python dict does. -/
def bumpCount (acc : List (String × Nat)) (u : String) : List (String × Nat) :=
  if acc.any (fun p => p.1 = u) then
    acc.map (fun p => if p.1 = u then (p.1, p.2 + 1) else p)
  else
    acc ++ [(u, 1)]

/-- Step 1 counting loop of `_execute_duoshe`: each message contributes its
author's id; messages with no user info or an empty user id are skipped
(`if msg.user_info and msg.user_info.user_id`). -/
def user_message_count (msgs : List (Option String)) : List (String × Nat) :=
  msgs.foldl (fun acc m =>
    match m with
    | none => acc
    | some u => if u = "" then acc else bumpCount acc u) []

/-- Stable insertion of one entry into a count-descending list: the entry goes
before the first strictly smaller count, after any tie. -/
def insertDesc (p : String × Nat) : List (String × Nat) → List (String × Nat)
  | [] => [p]
  | q :: rest => if q.2 ≤ p.2 then p :: q :: rest else q :: insertDesc p rest

/-- Stable sort by descending count, the semantics of
`sorted(user_message_count.items(), key=lambda x: x[1], reverse=True)`:
descending by count, ties kept in first-appearance order. -/
def sortDesc (l : List (String × Nat)) : List (String × Nat) := l.foldr insertDesc []

/-- The ranking phase of `_execute_duoshe`: count messages per user over the
window, sort descending by count, keep only the user ids
(`active_users = [user_id for user_id, _ in sorted_users]`). -/
def active_users_of (msgs : List (Option String)) : List String :=
  (sortDesc (user_message_count msgs)).map Prod.fst

/-- The index computation of Step 2: `index = int(random_value * len)` followed
by `index = min(index, len - 1)`. For the nonnegative samples produced by
`random.expovariate`, Python's `int` truncation is the floor. -/
def selectIndex (s : ℚ) (n : Nat) : Nat :=
  min (Int.toNat ⌊s * (n : ℚ)⌋) (n - 1)

/-- Step 2 of `_execute_duoshe`: an empty list selects nobody, a single active
user is returned directly, otherwise the exponential sample `s` is mapped to a
clamped index into the ranked list. -/
def selectTarget (ranked : List String) (s : ℚ) : Option String :=
  match ranked with
  | [] => none
  | [u] => some u
  | _ => ranked.get? (selectIndex s ranked.length)

/-- A remote Napcat call issued during one execution cycle, in order. -/
inductive RemoteCall where
  | poke (group_id user_id : String)
  | getMemberInfo (group_id user_id : String)
  | setCard (group_id user_id card : String)
  deriving DecidableEq, Repr

/-- The candidate name pool of Step 6: the configured nickname when non-empty,
then the whole alias list whenever that list itself is non-empty, then the
bot's pre-existing card when non-empty (`if bot_nickname / if bot_aliases /
if bot_card` with Python truthiness). -/
def cardPool (nickname : String) (aliases : List String) (card : String) : List String :=
  (if nickname ≠ "" then [nickname] else []) ++
  (if aliases ≠ [] then aliases else []) ++
  (if card ≠ "" then [card] else [])

/-- The external world one execution cycle observes: the message window, the
outcome of each remote request, the random draws, and the bot identity
config. -/
structure ExecEnv where
  /-- Author user id of each message in the 24h window, `none` when the
  message has no user info (empty ids are handled by the counting loop). -/
  messages : List (Option String)
  /-- Whether the message query / counting block raised (its `except` branch
  forces `active_users = []`). -/
  rankFails : Bool
  /-- The `random.expovariate(lambda_param)` draw. -/
  expSample : ℚ
  /-- Transport outcome of the `group_poke` request. -/
  pokeResp : ApiResult Body
  /-- Transport outcome of `get_group_member_info` for the target user. -/
  targetInfoResp : ApiResult Body
  /-- Transport outcome of `get_group_member_info` for the bot itself. -/
  botInfoResp : ApiResult Body
  /-- Transport outcome of `set_group_card` on the bot's own card. -/
  setOwnResp : ApiResult Body
  /-- Transport outcome of `set_group_card` on the target user. -/
  setTargetResp : ApiResult Body
  /-- Config `bot.nickname`. -/
  botNickname : String
  /-- Config `bot.alias_names`. -/
  botAliases : List String
  /-- The `random.choice` draw over the candidate pool, as an index. -/
  choiceIdx : Nat

/-- The ranked candidate list Step 1 hands to Step 2: empty when the query
block raised, otherwise the activity ranking of the window. -/
def activeUsers (env : ExecEnv) : List String :=
  if env.rankFails then [] else active_users_of env.messages

/-- One execution cycle `_execute_duoshe`, as the ordered trace of remote
calls it issues. Early `return`s cut the trace; the poke result and the
own-card result are logged but never branched on. -/
def execute_duoshe (env : ExecEnv) (group_id bot_qq : String) : List RemoteCall :=
  match selectTarget (activeUsers env) env.expSample with
  | none => []
  | some target =>
    if target = "" then []
    else
      let t2 : List RemoteCall :=
        [.poke group_id target, .getMemberInfo group_id target]
      match NapcatAPI.get_group_member_info env.targetInfoResp with
      | .err _ => t2
      | .ok target_info =>
        let target_card := pyOr (target_info.card.getD "") (target_info.nickname.getD "")
        let t3 := t2 ++ [.getMemberInfo group_id bot_qq]
        match NapcatAPI.get_group_member_info env.botInfoResp with
        | .err _ => t3
        | .ok bot_info =>
          let bot_card := pyOr (bot_info.card.getD "") (bot_info.nickname.getD "")
          let bot_role := bot_info.role.getD "member"
          let t4 := t3 ++ [.setCard group_id bot_qq target_card]
          if bot_role = "admin" ∨ bot_role = "owner" then
            let candidates := cardPool env.botNickname env.botAliases bot_card
            if candidates = [] then t4
            else t4 ++ [.setCard group_id target (candidates.getD (env.choiceIdx % candidates.length) "")]
          else t4

/-- A parsed JSON document, the content of `schedule.json` after the text
layer (Python's `json` library) has done its work. -/
inductive JsonValue where
  | null
  | bool (b : Bool)
  | num (q : ℚ)
  | str (s : String)
  | arr (elems : List JsonValue)
  | obj (fields : List (String × JsonValue))

/-- Reading a flat string-to-number object back as a schedule mapping; any
other shape is not a `Dict[str, float]` document. -/
def decodeScheduleFields : List (String × JsonValue) → Option (List (String × ℚ))
  | [] => some []
  | (k, .num q) :: rest => (decodeScheduleFields rest).map (fun d => (k, q) :: d)
  | _ => none

/-- `_save_schedule`: overwrite the file with the mapping serialized as a
flat JSON object (`json.dump(schedule_data, f)`). -/
def save_schedule (d : List (String × ℚ)) : Option JsonValue :=
  some (.obj (d.map (fun p => (p.1, JsonValue.num p.2))))

/-- `_load_schedule`: a missing file or a document that is not a flat
string-to-number object degrades to the empty mapping; otherwise the stored
entries are returned (`json.load(f)`). -/
def load_schedule (file : Option JsonValue) : List (String × ℚ) :=
  match file with
  | none => []
  | some (.obj fields) => (decodeScheduleFields fields).getD []
  | some _ => []

/-- Lookup in the schedule dict, `schedule_data.get(group_id, default)`
without the default. -/
def dictGet : List (String × ℚ) → String → Option ℚ
  | [], _ => none
  | p :: rest, k => if p.1 = k then some p.2 else dictGet rest k

/-- Python dict assignment `schedule_data[group_id] = next_run`: an existing
key keeps its position and gets the new value, a new key is appended. -/
def dictSet : List (String × ℚ) → String → ℚ → List (String × ℚ)
  | [], k, v => [(k, v)]
  | p :: rest, k, v => if p.1 = k then (k, v) :: rest else p :: dictSet rest k v

/-- One iteration of the `_schedule_task` loop on the schedule mapping, with
`u` the `random.uniform(min_minutes, max_minutes)` draw: when the stored (or
defaulted) next_run is due, the cycle runs and the group's entry is set to
`current_time + u * 60`, anchored at the `current_time` captured before the
cycle; otherwise the mapping is untouched. -/
def schedule_iteration (sched : List (String × ℚ)) (group_id : String)
    (current_time u : ℚ) : List (String × ℚ) :=
  if (dictGet sched group_id).getD current_time ≤ current_time then
    dictSet sched group_id (current_time + u * 60)
  else
    sched

/-- Recognizer for any card mutation in a trace. -/
def isSetCard : RemoteCall → Bool
  | .setCard _ _ _ => true
  | _ => false

/-- Recognizer for a card mutation on some user other than `uid`. -/
def isSetCardNotOn (uid : String) : RemoteCall → Bool
  | .setCard _ u _ => u ≠ uid
  | _ => false

/-- Recognizer for a card mutation on user `uid` of group `gid` whose new
card is drawn from `pool`. -/
def isSetCardOn (gid uid : String) (pool : List String) : RemoteCall → Bool
  | .setCard g u card => g = gid && u = uid && pool.contains card
  | _ => false

/-- A cycle whose message window is empty: the ranking yields no candidate. -/
def envEmptyWindow : ExecEnv :=
  { messages := [], rankFails := false, expSample := 0,
    pokeResp := .err "conn", targetInfoResp := .err "conn",
    botInfoResp := .err "conn", setOwnResp := .err "conn",
    setTargetResp := .err "conn",
    botNickname := "", botAliases := [], choiceIdx := 0 }

/-- A cycle in which the target's member-info response is `{"data": null}`. -/
def envNullData : ExecEnv :=
  { messages := [some "A"], rankFails := false, expSample := 0,
    pokeResp := .ok ⟨some "ok", none, none⟩,
    targetInfoResp := .ok ⟨some "ok", none, none⟩,
    botInfoResp := .ok ⟨some "ok", none, some ⟨some "bc", some "bn", some "admin"⟩⟩,
    setOwnResp := .ok ⟨some "ok", none, none⟩,
    setTargetResp := .ok ⟨some "ok", none, none⟩,
    botNickname := "nick", botAliases := [], choiceIdx := 0 }

/-- A cycle in which the bot's fetched role is plain `member`. -/
def envMemberRole : ExecEnv :=
  { messages := [some "A"], rankFails := false, expSample := 0,
    pokeResp := .ok ⟨some "ok", none, none⟩,
    targetInfoResp := .ok ⟨some "ok", none, some ⟨some "tc", some "tn", some "member"⟩⟩,
    botInfoResp := .ok ⟨some "ok", none, some ⟨some "bc", some "bn", some "member"⟩⟩,
    setOwnResp := .ok ⟨some "ok", none, none⟩,
    setTargetResp := .ok ⟨some "ok", none, none⟩,
    botNickname := "nick", botAliases := [], choiceIdx := 0 }

/-- A cycle with an administrator-class bot whose own-card update fails. -/
def envAdminOwnFail : ExecEnv :=
  { messages := [some "A"], rankFails := false, expSample := 0,
    pokeResp := .ok ⟨some "ok", none, none⟩,
    targetInfoResp := .ok ⟨some "ok", none, some ⟨some "tc", some "tn", some "member"⟩⟩,
    botInfoResp := .ok ⟨some "ok", none, some ⟨some "bc", some "bn", some "admin"⟩⟩,
    setOwnResp := .ok ⟨some "failed", some "denied", none⟩,
    setTargetResp := .ok ⟨some "ok", none, none⟩,
    botNickname := "nick", botAliases := [], choiceIdx := 0 }

/-- A cycle with an administrator-class bot whose nickname and pre-existing
card are empty while the alias list holds a single empty string. -/
def envEmptyAlias : ExecEnv :=
  { messages := [some "A"], rankFails := false, expSample := 0,
    pokeResp := .ok ⟨some "ok", none, none⟩,
    targetInfoResp := .ok ⟨some "ok", none, some ⟨some "tc", some "tn", some "member"⟩⟩,
    botInfoResp := .ok ⟨some "ok", none, some ⟨none, none, some "owner"⟩⟩,
    setOwnResp := .ok ⟨some "ok", none, none⟩,
    setTargetResp := .ok ⟨some "ok", none, none⟩,
    botNickname := "", botAliases := [""], choiceIdx := 0 }

/-- Decoding inverts the field-by-field encoding of a schedule mapping. -/
lemma decodeScheduleFields_encode (d : List (String × ℚ)) :
    decodeScheduleFields (d.map (fun p => (p.1, JsonValue.num p.2))) = some d := by
  induction d with
  | nil => rfl
  | cons p rest ih => simp [decodeScheduleFields, ih]

/-- Looking up the key just assigned returns the assigned value. -/
lemma dictGet_dictSet_self (d : List (String × ℚ)) (k : String) (v : ℚ) :
    dictGet (dictSet d k v) k = some v := by
  induction d with
  | nil => simp [dictSet, dictGet]
  | cons p rest ih =>
    by_cases h : p.1 = k
    · simp [dictSet, dictGet, h]
    · simp [dictSet, dictGet, h, ih]

/-- Assignment to one key leaves every other key's lookup unchanged. -/
lemma dictGet_dictSet_ne (d : List (String × ℚ)) (k k' : String) (v : ℚ)
    (h : k' ≠ k) : dictGet (dictSet d k v) k' = dictGet d k' := by
  induction d with
  | nil => simp [dictSet, dictGet, Ne.symm h]
  | cons p rest ih =>
    by_cases hp : p.1 = k
    · subst hp
      simp [dictSet, dictGet, Ne.symm h]
    · simp [dictSet, dictGet, hp, ih]

/-- C9: saving a schedule mapping and loading it back (the backing document
present and uncorrupted, i.e. exactly what save wrote) yields an equal
mapping. -/
theorem C9_schedule_roundtrip (d : List (String × ℚ)) :
    load_schedule (save_schedule d) = d := by
  simp [load_schedule, save_schedule, decodeScheduleFields_encode]

/-- C3 fails as stated: on a parsed body whose status is not a success,
`group_poke` and `get_group_member_info` still report success, and on a
parsed body with a null data payload `set_group_card` still reports success,
so the three operations do not all classify those bodies as failures. -/
theorem C3_counterexample :
    (NapcatAPI.group_poke (.ok ⟨some "failed", none, none⟩)).isOk = true ∧
    (NapcatAPI.set_group_card (.ok ⟨some "ok", none, none⟩)).isOk = true ∧
    (NapcatAPI.get_group_member_info
      (.ok ⟨some "failed", none, some ⟨none, none, none⟩⟩)).isOk = true := by
  decide

/-- C3 amended: the body-level failure classification is per-operation, not
shared. `set_group_card` fails exactly when the body's status is not `"ok"`
(its data payload is never checked), `get_group_member_info` fails exactly
when the data payload is absent or null (the status is never checked), and
`group_poke` accepts every parsed body; only transport-level errors fail all
three uniformly. -/
theorem C3_failure_classification (b : Body) (e : String) :
    NapcatAPI.group_poke (.ok b) = .ok b ∧
    ((NapcatAPI.set_group_card (.ok b)).isOk = true ↔ b.status = some "ok") ∧
    ((NapcatAPI.get_group_member_info (.ok b)).isOk = true ↔ b.data ≠ none) ∧
    (NapcatAPI.group_poke (.err e)).isOk = false ∧
    (NapcatAPI.set_group_card (.err e)).isOk = false ∧
    (NapcatAPI.get_group_member_info (.err e)).isOk = false := by
  refine ⟨rfl, ?_, ?_, rfl, rfl, rfl⟩
  · by_cases h : b.status = some "ok" <;>
      simp [NapcatAPI.set_group_card, ApiResult.isOk, h]
  · match hb : b.data with
    | none => simp [NapcatAPI.get_group_member_info, ApiResult.isOk, hb]
    | some d => simp [NapcatAPI.get_group_member_info, ApiResult.isOk, hb]

/-- C7: a cycle whose ranking phase yields no candidate returns before any
remote call: the trace of remote calls is empty. -/
theorem C7_empty_candidates_no_remote_calls (env : ExecEnv) (group_id bot_qq : String)
    (hempty : activeUsers env = []) :
    execute_duoshe env group_id bot_qq = [] := by
  unfold execute_duoshe
  rw [hempty]
  rfl

/-- C7 at a concrete cycle: an empty message window makes no remote call. -/
theorem C7_witness : execute_duoshe envEmptyWindow "1001" "10000" = [] :=
  C7_empty_candidates_no_remote_calls envEmptyWindow "1001" "10000" (by decide)

/-- C1: in a cycle that runs the execute-and-reschedule branch, with
`0 < min_interval ≤ max_interval` and the uniform draw `u` lying in
`[min_interval, max_interval]` minutes, the next_run written for the group
is strictly later than the cycle's start `t` and its distance from `t` lies
within `[min_interval * 60, max_interval * 60]` seconds. -/
theorem C1_next_run_within_interval (sched : List (String × ℚ)) (g : String)
    (t u minI maxI : ℚ)
    (hmin : 0 < minI) (hlo : minI ≤ u) (hhi : u ≤ maxI)
    (hdue : (dictGet sched g).getD t ≤ t) :
    ∃ r, dictGet (schedule_iteration sched g t u) g = some r ∧
      t < r ∧ minI * 60 ≤ r - t ∧ r - t ≤ maxI * 60 := by
  refine ⟨t + u * 60, ?_, ?_, ?_, ?_⟩
  · simp [schedule_iteration, hdue, dictGet_dictSet_self]
  · nlinarith
  · nlinarith
  · nlinarith

/-- C1 at a concrete cycle: an unscheduled group is due at once, and with
the draw at the low end of a 360-480 minute range the persisted next_run
lands in the required band. -/
theorem C1_witness :
    ∃ r, dictGet (schedule_iteration [] "1001" 0 360) "1001" = some r ∧
      (0 : ℚ) < r ∧ (360 : ℚ) * 60 ≤ r - 0 ∧ r - 0 ≤ (480 : ℚ) * 60 :=
  C1_next_run_within_interval [] "1001" 0 360 360 480
    (by norm_num) (by norm_num) (by norm_num) (by simp [dictGet])

/-- C10: the mapping written by the execute-and-reschedule branch differs
from the mapping loaded at the start of the iteration only at the current
group's key, which now holds the recomputed next_run; every other key's
entry is written back unchanged. -/
theorem C10_reschedule_frame (sched : List (String × ℚ)) (g : String)
    (t u : ℚ) (hdue : (dictGet sched g).getD t ≤ t) :
    dictGet (schedule_iteration sched g t u) g = some (t + u * 60) ∧
    ∀ k, k ≠ g → dictGet (schedule_iteration sched g t u) k = dictGet sched k := by
  constructor
  · simp [schedule_iteration, hdue, dictGet_dictSet_self]
  · intro k hk
    simp [schedule_iteration, hdue, dictGet_dictSet_ne _ _ _ _ hk]

/-- C10 at a concrete cycle: rescheduling group 2002 rewrites its entry and
carries group 1001's entry over unchanged. -/
theorem C10_witness :
    dictGet (schedule_iteration [("1001", 5)] "2002" 10 7) "2002" = some (10 + 7 * 60) ∧
    dictGet (schedule_iteration [("1001", 5)] "2002" 10 7) "1001" = dictGet [("1001", 5)] "1001" :=
  ⟨(C10_reschedule_frame [("1001", 5)] "2002" 10 7 (by simp [dictGet])).1,
   (C10_reschedule_frame [("1001", 5)] "2002" 10 7 (by simp [dictGet])).2 "1001" (by decide)⟩

/-- C2: candidate selection returns an element of a non-empty ranked list; a
single candidate is returned directly whatever the sample is, and with two
or more candidates the result is the entry at the clamped index
`min(floor(sample * n), n - 1)`; in the concrete scenario
`["A", "B", "C"]` with sample `0.0704` the index is 0 and `"A"` is
selected. -/
theorem C2_candidate_selection (ranked : List String) (s : ℚ)
    (hs : 0 ≤ s) (hne : ranked ≠ []) :
    (∃ u, selectTarget ranked s = some u ∧ u ∈ ranked) ∧
    (∀ u, ranked = [u] → ∀ s2 : ℚ, selectTarget ranked s2 = some u) ∧
    (2 ≤ ranked.length →
      selectTarget ranked s =
        ranked.get? (min (Int.toNat ⌊s * (ranked.length : ℚ)⌋) (ranked.length - 1))) ∧
    selectTarget ["A", "B", "C"] ((704 : ℚ) / 10000) = some "A" := by
  refine ⟨?_, ?_, ?_, ?_⟩
  · match ranked, hne with
    | [u], _ => exact ⟨u, rfl, List.mem_singleton.mpr rfl⟩
    | a :: b :: rest, _ =>
      have hlen : selectIndex s (a :: b :: rest).length < (a :: b :: rest).length := by
        have h1 : selectIndex s (a :: b :: rest).length ≤ (a :: b :: rest).length - 1 :=
          min_le_right _ _
        have h2 : (a :: b :: rest).length - 1 < (a :: b :: rest).length := by
          simp
        exact lt_of_le_of_lt h1 h2
      refine ⟨(a :: b :: rest).get ⟨selectIndex s (a :: b :: rest).length, hlen⟩, ?_, ?_⟩
      · simpa [selectTarget] using List.get?_eq_get hlen
      · exact List.get_mem _ _ _
  · intro u hu s2
    subst hu
    rfl
  · intro h2
    match ranked, hne, h2 with
    | a :: b :: rest, _, _ => rfl
  · norm_num [selectTarget, selectIndex]

/-- C2 at the concrete scenario: the exponential sample 0.0704 over the
three-candidate list selects a member of the list, namely via index 0. -/
theorem C2_witness :
    (∃ u, selectTarget ["A", "B", "C"] ((704 : ℚ) / 10000) = some u ∧
      u ∈ ["A", "B", "C"]) ∧
    selectTarget ["A", "B", "C"] ((704 : ℚ) / 10000) = some "A" :=
  ⟨(C2_candidate_selection ["A", "B", "C"] ((704 : ℚ) / 10000)
      (by norm_num) (by decide)).1,
   (C2_candidate_selection ["A", "B", "C"] ((704 : ℚ) / 10000)
      (by norm_num) (by decide)).2.2.2⟩

/-- The clamped uniform-choice index always picks an element of a non-empty
pool. -/
lemma contains_getD_mod (pool : List String) (i : Nat) (hne : pool ≠ []) :
    pool.contains (pool.getD (i % pool.length) "") = true := by
  have hlt : i % pool.length < pool.length :=
    Nat.mod_lt _ (List.length_pos.mpr hne)
  have hmem : pool.getD (i % pool.length) "" ∈ pool := by
    rw [List.getD_eq_get?, List.get?_eq_get hlt]
    exact List.get_mem _ _ _
  exact List.elem_eq_true_of_mem hmem

/-- C4: when fetching the target user's member info fails (a transport error
or a null/absent data payload), the cycle aborts there and mutates no card
at all: the trace holds no set-card call. -/
theorem C4_no_card_mutation_on_target_info_failure (env : ExecEnv)
    (group_id bot_qq : String)
    (hfail : (NapcatAPI.get_group_member_info env.targetInfoResp).isOk = false) :
    (execute_duoshe env group_id bot_qq).any isSetCard = false := by
  unfold execute_duoshe
  cases hsel : selectTarget (activeUsers env) env.expSample with
  | none => rfl
  | some target =>
    by_cases ht : target = ""
    · simp [ht]
    · cases hti : NapcatAPI.get_group_member_info env.targetInfoResp with
      | ok v => rw [hti] at hfail; simp [ApiResult.isOk] at hfail
      | err e => simp [ht, isSetCard]

/-- C4 at a concrete cycle: a member-info response of `data: null` aborts the
cycle before any card mutation. -/
theorem C4_witness :
    (execute_duoshe envNullData "1001" "10000").any isSetCard = false :=
  C4_no_card_mutation_on_target_info_failure envNullData "1001" "10000" (by decide)

/-- C5: when the bot's fetched role is not administrator-class (in
particular plain `member`), no set-card call of the cycle touches any user
other than the bot itself — the target, drawn from the bot-filtered message
window, is never the bot, so the target's card is never modified whatever
the other steps did. -/
theorem C5_member_role_never_sets_target_card (env : ExecEnv)
    (group_id bot_qq : String) (bi : MemberData)
    (hbi : NapcatAPI.get_group_member_info env.botInfoResp = .ok bi)
    (hadmin : bi.role.getD "member" ≠ "admin")
    (howner : bi.role.getD "member" ≠ "owner") :
    (execute_duoshe env group_id bot_qq).any (isSetCardNotOn bot_qq) = false := by
  unfold execute_duoshe
  cases hsel : selectTarget (activeUsers env) env.expSample with
  | none => rfl
  | some target =>
    by_cases ht : target = ""
    · simp [ht]
    · cases hti : NapcatAPI.get_group_member_info env.targetInfoResp with
      | err e => simp [ht, isSetCardNotOn]
      | ok ti =>
        rw [hbi]
        simp [ht, isSetCardNotOn, hadmin, howner]

/-- C5 at a concrete cycle: with the bot reported as plain `member`, the
cycle sets no card on anyone but the bot. -/
theorem C5_witness :
    (execute_duoshe envMemberRole "1001" "10000").any (isSetCardNotOn "10000") = false :=
  C5_member_role_never_sets_target_card envMemberRole "1001" "10000"
    ⟨some "bc", some "bn", some "member"⟩ (by decide) (by decide) (by decide)

/-- With an administrator-class role and a non-empty candidate pool, Step 6
issues a set-card call on the target drawing its new card from the pool. -/
lemma swap_call_in_trace (env : ExecEnv)
    (group_id bot_qq target : String) (ti bi : MemberData)
    (hsel : selectTarget (activeUsers env) env.expSample = some target)
    (ht : target ≠ "")
    (hti : NapcatAPI.get_group_member_info env.targetInfoResp = .ok ti)
    (hbi : NapcatAPI.get_group_member_info env.botInfoResp = .ok bi)
    (hrole : bi.role.getD "member" = "admin" ∨ bi.role.getD "member" = "owner")
    (hpool : cardPool env.botNickname env.botAliases
      (pyOr (bi.card.getD "") (bi.nickname.getD "")) ≠ []) :
    (execute_duoshe env group_id bot_qq).any
      (isSetCardOn group_id target
        (cardPool env.botNickname env.botAliases
          (pyOr (bi.card.getD "") (bi.nickname.getD "")))) = true := by
  unfold execute_duoshe
  rw [hsel, hti, hbi]
  have hlt : env.choiceIdx %
      (cardPool env.botNickname env.botAliases
        (pyOr (bi.card.getD "") (bi.nickname.getD ""))).length <
      (cardPool env.botNickname env.botAliases
        (pyOr (bi.card.getD "") (bi.nickname.getD ""))).length :=
    Nat.mod_lt _ (List.length_pos.mpr hpool)
  rcases hrole with hr | hr <;>
    simp [ht, hr, hpool, isSetCardOn] <;> right <;>
    rw [List.getElem?_eq_getElem hlt] <;>
    simpa using List.getElem_mem hlt

/-- C6: a failure of the own-card update does not stop the cycle — with an
administrator-class role and a non-empty candidate pool, a set-card call on
the target, drawing its card from the pool, still appears in the trace even
though the own-card call returned failure. -/
theorem C6_swap_attempted_after_own_card_failure (env : ExecEnv)
    (group_id bot_qq target : String) (ti bi : MemberData) (pool : List String)
    (hpoolDef : pool = cardPool env.botNickname env.botAliases
      (pyOr (bi.card.getD "") (bi.nickname.getD "")))
    (hsel : selectTarget (activeUsers env) env.expSample = some target)
    (ht : target ≠ "")
    (hti : NapcatAPI.get_group_member_info env.targetInfoResp = .ok ti)
    (hbi : NapcatAPI.get_group_member_info env.botInfoResp = .ok bi)
    (hrole : bi.role.getD "member" = "admin" ∨ bi.role.getD "member" = "owner")
    (hownfail : (NapcatAPI.set_group_card env.setOwnResp).isOk = false)
    (hpool : pool ≠ []) :
    (execute_duoshe env group_id bot_qq).any (isSetCardOn group_id target pool) = true := by
  subst hpoolDef
  exact swap_call_in_trace env group_id bot_qq target ti bi hsel ht hti hbi hrole hpool

/-- C6 at a concrete cycle: the own-card call fails with a non-ok status,
the bot is admin, and the target's card is still set from the pool. -/
theorem C6_witness :
    (execute_duoshe envAdminOwnFail "1001" "10000").any
      (isSetCardOn "1001" "A" (cardPool "nick" [] "bc")) = true := by
  have h := C6_swap_attempted_after_own_card_failure envAdminOwnFail "1001" "10000" "A"
    ⟨some "tc", some "tn", some "member"⟩ ⟨some "bc", some "bn", some "admin"⟩
    (cardPool "nick" [] "bc") (by decide) (by decide) (by decide) (by decide)
    (by decide) (by decide) (by decide) (by decide)
  exact h

/-- C8 fails as stated: an alias list holding one empty string makes the
candidate pool `[""]` — the pool is not restricted to non-empty entries,
because the alias list is extended wholesale once it is itself non-empty —
and the cycle then sets the target's card to the empty string instead of
skipping the step. -/
theorem C8_counterexample :
    "" ∈ cardPool "" [""] "" ∧
    RemoteCall.setCard "1001" "A" "" ∈ execute_duoshe envEmptyAlias "1001" "10000" := by
  decide

/-- C8 amended: the candidate pool is the configured nickname when
non-empty, then the entire alias list (all of its entries, empty strings
included) whenever that list itself is non-empty, then the bot's
pre-existing card when non-empty; the new card set on the target is drawn
from that pool, and when the pool is empty the step is skipped with no
set-card call on the target. -/
theorem C8_swap_pool_amended (env : ExecEnv)
    (group_id bot_qq target : String) (ti bi : MemberData) (pool : List String)
    (hpoolDef : pool = cardPool env.botNickname env.botAliases
      (pyOr (bi.card.getD "") (bi.nickname.getD "")))
    (hsel : selectTarget (activeUsers env) env.expSample = some target)
    (ht : target ≠ "")
    (hti : NapcatAPI.get_group_member_info env.targetInfoResp = .ok ti)
    (hbi : NapcatAPI.get_group_member_info env.botInfoResp = .ok bi)
    (hrole : bi.role.getD "member" = "admin" ∨ bi.role.getD "member" = "owner")
    (htb : target ≠ bot_qq) :
    (∀ x, x ∈ pool ↔
      ((x = env.botNickname ∧ env.botNickname ≠ "") ∨
       (x ∈ env.botAliases ∧ env.botAliases ≠ []) ∨
       (x = pyOr (bi.card.getD "") (bi.nickname.getD "") ∧
        pyOr (bi.card.getD "") (bi.nickname.getD "") ≠ ""))) ∧
    (pool = [] →
      (execute_duoshe env group_id bot_qq).any (isSetCardNotOn bot_qq) = false) ∧
    (pool ≠ [] →
      (execute_duoshe env group_id bot_qq).any (isSetCardOn group_id target pool) = true) := by
  subst hpoolDef
  refine ⟨?_, ?_, ?_⟩
  · intro x
    by_cases h1 : env.botNickname = "" <;> by_cases h2 : env.botAliases = [] <;>
      by_cases h3 : pyOr (bi.card.getD "") (bi.nickname.getD "") = "" <;>
      simp [cardPool, h1, h2, h3]
  · intro hpool
    unfold execute_duoshe
    rw [hsel, hti, hbi]
    rcases hrole with hr | hr <;> simp [ht, hr, hpool, isSetCardNotOn]
  · intro hpool
    exact swap_call_in_trace env group_id bot_qq target ti bi hsel ht hti hbi hrole hpool

/-- C8 amended, at a concrete cycle: with nickname and pre-existing card
empty and alias list `[""]`, the pool is exactly `[""]` (the empty alias is
a member) and the target's card is set from it. -/
theorem C8_witness :
    ("" ∈ cardPool "" [""] "" ↔
      (("" = "" ∧ ("" : String) ≠ "") ∨
       (("" : String) ∈ [""] ∧ ([""] : List String) ≠ []) ∨
       ("" = pyOr "" "" ∧ pyOr "" "" ≠ ""))) ∧
    (execute_duoshe envEmptyAlias "1001" "10000").any
      (isSetCardOn "1001" "A" (cardPool "" [""] "")) = true := by
  have h := C8_swap_pool_amended envEmptyAlias "1001" "10000" "A"
    ⟨some "tc", some "tn", some "member"⟩ ⟨none, none, some "owner"⟩
    (cardPool "" [""] "") (by decide) (by decide) (by decide) (by decide)
    (by decide) (by decide) (by decide)
  exact ⟨h.1 "", h.2.2 (by decide)⟩
